import Mathlib

/-!
Shallow embedding of the db-probe probing engine (Go sources:
`internal/config/config.go`, `internal/metrics/metrics.go`,
`internal/prober/prober.go`) together with theorems settling the
specification claims about configuration validation, failure
classification, the per-cycle probe executor, the reconnect heuristic
and metric initialisation.
-/

namespace DBProbe

/-! ### String helpers mirroring Go's `strings` package (char-level model) -/

/-- `strStarts s p` is true when `p` is a prefix of `s`
(Go `strings.HasPrefix` on rune lists). -/
def strStarts : List Char → List Char → Bool
  | _, [] => true
  | [], _ :: _ => false
  | c :: s, d :: p => c = d && strStarts s p

/-- Index of the first occurrence of pattern `p` in `s`
(Go `strings.Index`, char-level). -/
def strFind (p : List Char) : List Char → Option Nat
  | [] => if p = [] then some 0 else none
  | c :: t =>
    if strStarts (c :: t) p then some 0
    else (strFind p t).map (· + 1)

/-- Go `strings.Contains`. -/
def containsSub (s pat : String) : Bool :=
  (strFind pat.toList s.toList).isSome

/-- Go `strings.ToLower` (ASCII model). -/
def strLower (s : String) : String :=
  String.mk (s.toList.map Char.toLower)

/-! ### Go error values

A Go `error` is modelled by its `Error()` text and the text of
`errors.Unwrap` (empty string when the error wraps nothing, matching
the `underlyingErrMsg` variable of `analyzeError`). -/

structure GoError where
  msg : String
  underlying : String
  tyName : String
  deriving Repr, DecidableEq

/-- Append the unwrapped underlying error text to a detail string when
it is present and differs from the top-level text
(the repeated `if underlyingErrMsg != "" && underlyingErrMsg != errMsg`
blocks of `analyzeError`). -/
def withUnderlying (details errMsg underlyingErrMsg : String) : String :=
  if underlyingErrMsg ≠ "" ∧ underlyingErrMsg ≠ errMsg then
    details ++ " (底层错误: " ++ underlyingErrMsg ++ ")"
  else details

/-- The ORA error-code token extraction of the `ora-` branch of
`analyzeError` (prober.go lines 331-343): find `"ora-"` in the lowered
message, cut at the following space, else at the following colon. -/
def oraCodeSuffix (errMsgLower : String) : String :=
  match strFind "ora-".toList errMsgLower.toList with
  | none => ""
  | some idx =>
    let tail := errMsgLower.toList.drop idx
    match strFind " ".toList tail with
    | some endIdx => " (错误码: " ++ String.mk (tail.take endIdx) ++ ")"
    | none =>
      match strFind ":".toList tail with
      | some endIdx => " (错误码: " ++ String.mk (tail.take endIdx) ++ ")"
      | none => ""

/-- `analyzeError` (prober.go lines 240-384): classify an error into a
(stage, details) pair by scanning the lowercased error text, with fixed
rule precedence; `none` models a nil error. -/
def analyzeError (err : Option GoError) (dbType : String) : String × String :=
  match err with
  | none => ("", "")
  | some e =>
    let errMsg := e.msg
    let errMsgLower := strLower errMsg
    let underlyingErrMsg := e.underlying
    -- 网络连接错误（TCP 层）
    if containsSub errMsgLower "connection refused" ||
        containsSub errMsgLower "no such host" ||
        containsSub errMsgLower "network is unreachable" ||
        (containsSub errMsgLower "timeout" && containsSub errMsgLower "dial") then
      ("TCP连接", withUnderlying ("无法建立TCP连接: " ++ errMsg) errMsg underlyingErrMsg)
    -- EOF 错误（通常是协议握手阶段）
    else if containsSub errMsgLower "eof" || containsSub errMsgLower "end of file" then
      let details := "协议握手失败 (EOF): " ++ errMsg ++
        (if dbType = "oracle" then
          "。可能原因：1) service_name不正确 2) Oracle listener未启动 3) 网络中断 4) 超时时间过短"
        else
          "。可能原因：1) 数据库服务未启动 2) 网络中断 3) 超时时间过短")
      ("协议握手", withUnderlying details errMsg underlyingErrMsg)
    -- 认证错误
    else if containsSub errMsgLower "access denied" ||
        containsSub errMsgLower "invalid credentials" ||
        containsSub errMsgLower "authentication failed" ||
        containsSub errMsgLower "ora-01017" ||
        containsSub errMsgLower "ora-1017" ||
        containsSub errMsgLower "1045" then
      ("认证", withUnderlying ("认证失败: " ++ errMsg) errMsg underlyingErrMsg)
    -- SQL 执行错误
    else if containsSub errMsgLower "sql" ||
        containsSub errMsgLower "syntax error" ||
        containsSub errMsgLower "table" ||
        containsSub errMsgLower "column" then
      ("SQL执行", withUnderlying ("SQL执行失败: " ++ errMsg) errMsg underlyingErrMsg)
    -- Oracle 特定错误: ORA-01013（操作被超时取消）
    else if dbType = "oracle" &&
        (containsSub errMsgLower "ora-01013" || containsSub errMsgLower "ora-1013" ||
         containsSub errMsgLower "user requested cancel") then
      ("超时", withUnderlying
        ("操作超时被取消 (ORA-01013): " ++ errMsg ++
          "。可能原因：1) 超时时间过短 2) 网络延迟较高 3) 数据库响应慢。建议增加 probe_timeout 配置")
        errMsg underlyingErrMsg)
    -- Oracle 特定错误: 其他 ORA- 错误码
    else if dbType = "oracle" && containsSub errMsgLower "ora-" then
      ("Oracle协议", withUnderlying
        ("Oracle协议错误: " ++ errMsg ++ oraCodeSuffix errMsgLower)
        errMsg underlyingErrMsg)
    -- MySQL 特定错误码
    else if (dbType = "mysql" || dbType = "tidb") &&
        (containsSub errMsgLower "error" &&
          (containsSub errMsgLower "1045" || containsSub errMsgLower "2003" ||
           containsSub errMsgLower "2006")) then
      ("MySQL协议", withUnderlying ("MySQL协议错误: " ++ errMsg) errMsg underlyingErrMsg)
    -- 超时错误
    else if containsSub errMsgLower "context deadline exceeded" ||
        containsSub errMsgLower "timeout" then
      ("超时", withUnderlying ("操作超时: " ++ errMsg) errMsg underlyingErrMsg)
    -- 默认：未知错误
    else
      ("未知阶段", withUnderlying ("未知错误: " ++ errMsg) errMsg underlyingErrMsg)

/-! ### Configuration (`internal/config/config.go`)

Durations (`time.Duration`) are modelled as integer nanosecond counts. -/

structure DBConfig where
  name : String
  type_ : String
  host : String
  port : Int
  user : String
  password : String
  dsn : String
  query : String
  serviceName : String
  project : String
  env : String
  labels : List (String × String)
  deriving Repr, DecidableEq

structure Config where
  listenAddress : String
  probeInterval : Int
  probeTimeout : Int
  databases : List DBConfig
  deriving Repr, DecidableEq

/-- The distinct error returns of `config.Validate` (config.go lines 74-126). -/
inductive ValidateErr where
  | emptyDatabases
  | emptyName (i : Nat)
  | dupName (name : String)
  | emptyProject (i : Nat)
  | emptyEnv (i : Nat)
  | badType (i : Nat) (t : String)
  | emptyHost (i : Nat)
  | zeroPort (i : Nat)
  | emptyUser (i : Nat)
  | emptyPassword (i : Nat)
  deriving Repr, DecidableEq

/-- One iteration of the validation loop body (config.go lines 81-123):
checks for database `db` at index `i`, with `seen` the set of names
already registered in `nameMap`. -/
def validateDB (i : Nat) (db : DBConfig) (seen : List String) : Option ValidateErr :=
  if db.name = "" then some (.emptyName i)
  else if seen.contains db.name then some (.dupName db.name)
  else if db.project = "" then some (.emptyProject i)
  else if db.env = "" then some (.emptyEnv i)
  else if ¬(db.type_ = "mysql" ∨ db.type_ = "tidb" ∨ db.type_ = "oracle") then
    some (.badType i db.type_)
  else if db.dsn = "" then
    if db.host = "" then some (.emptyHost i)
    else if db.port = 0 then some (.zeroPort i)
    else if db.user = "" then some (.emptyUser i)
    else if db.password = "" then some (.emptyPassword i)
    else none
  else none

/-- The `for i, db := range cfg.Databases` loop of `Validate`, returning
the first error found. -/
def validateLoop (i : Nat) (seen : List String) : List DBConfig → Option ValidateErr
  | [] => none
  | db :: rest =>
    match validateDB i db seen with
    | some e => some e
    | none => validateLoop (i + 1) (db.name :: seen) rest

/-- `config.Validate` (config.go lines 74-126). It checks only the
`Databases` list; it never inspects `ProbeInterval` or `ProbeTimeout`. -/
def Validate (cfg : Config) : Option ValidateErr :=
  if cfg.databases = [] then some .emptyDatabases
  else validateLoop 0 [] cfg.databases

/-! ### Metrics (`internal/metrics/metrics.go`) -/

/-- The fixed Prometheus label-set (`metrics.NewLabels`). -/
structure Labels where
  project : String
  env : String
  dbName : String
  dbType : String
  dbHost : String
  dbIp : String
  role : String
  deriving Repr, DecidableEq

/-- `metrics.NewLabels` (metrics.go lines 305-326): derived from the
database config plus the resolved IP; `role` is taken from the extra
labels map when present, else empty. -/
def NewLabels (dbCfg : DBConfig) (ip : String) : Labels :=
  { project := dbCfg.project
    env := dbCfg.env
    dbName := dbCfg.name
    dbType := dbCfg.type_
    dbHost := dbCfg.host
    dbIp := ip
    role := match dbCfg.labels.lookup "role" with
            | some r => r
            | none => "" }

/-- Registry state of the metric vectors touched at construction time:
each child (keyed by label-set) is `none` until first accessed via
`With`. Values are exact rationals. -/
structure MetricsState where
  targetInfo : Labels → Option ℚ
  failuresTotal : Labels → Option ℚ
  pingFailuresTotal : Labels → Option ℚ
  queryFailuresTotal : Labels → Option ℚ
  reconnectsTotal : Labels → Option ℚ

/-- `vec.With(labels).Set(v)`: materialises the child and sets it. -/
def gaugeSet (m : Labels → Option ℚ) (labels : Labels) (v : ℚ) : Labels → Option ℚ :=
  fun l => if l = labels then some v else m l

/-- `vec.With(labels).Add(d)`: materialises the child (initial value 0)
and adds `d`. -/
def counterAdd (m : Labels → Option ℚ) (labels : Labels) (d : ℚ) : Labels → Option ℚ :=
  fun l => if l = labels then some ((m labels).getD 0 + d) else m l

/-- `metrics.SetTargetInfo` (metrics.go lines 370-380): set the static
target-info gauge to 1 and initialise the four counters with an
explicit `Add(0)`. -/
def SetTargetInfo (labels : Labels) (m : MetricsState) : MetricsState :=
  { targetInfo := gaugeSet m.targetInfo labels 1
    failuresTotal := counterAdd m.failuresTotal labels 0
    pingFailuresTotal := counterAdd m.pingFailuresTotal labels 0
    queryFailuresTotal := counterAdd m.queryFailuresTotal labels 0
    reconnectsTotal := counterAdd m.reconnectsTotal labels 0 }

/-! ### Target construction (`prober.newTarget`, prober.go lines 71-236) -/

/-- Truncation toward zero, Go's `int(x)` conversion from float. -/
def truncInt (q : ℚ) : Int :=
  if q ≥ 0 then ⌊q⌋ else ⌈q⌉

/-- The Oracle connect-timeout computation (prober.go lines 116-124):
`int(ProbeTimeout.Seconds() * 2)` clamped to a minimum of 3 and a
maximum of 10 seconds. -/
def oracleConnectTimeout (probeTimeoutNs : Int) : Int :=
  let ct := truncInt ((probeTimeoutNs : ℚ) / 1000000000 * 2)
  let ct := if ct < 3 then 3 else ct
  if ct > 10 then 10 else ct

/-- The connection string handed to `sql.Open`. The Oracle branch calls
the external `go_ora.BuildUrl`, kept structural here (server, port,
service name, user, password, url options). -/
inductive DSN where
  | str (s : String)
  | oracleBuildUrl (server : String) (port : Int) (serviceName user password : String)
      (options : List (String × String))
  deriving Repr, DecidableEq

/-- The construction-time data of a `DBTarget` relevant to this
development (labels, resolved IP, connection string, Oracle service
name, effective probe query). -/
structure TargetModel where
  labels : Labels
  ip : String
  dsn : DSN
  serviceName : String
  query : String
  deriving Repr, DecidableEq

/-- `prober.newTarget` (prober.go lines 71-236), with the environmental
inputs made explicit: `ip` is the result of the IP-resolution block
(lines 78-102, DNS is external) and `defaultQuery` is
`driver.DefaultQuery()`. Returns the constructed target data and the
metrics state after the `metrics.SetTargetInfo` call (line 177). -/
def newTarget (dbCfg : DBConfig) (probeTimeoutNs : Int) (ip defaultQuery : String)
    (m : MetricsState) : TargetModel × MetricsState :=
  let dsnService : DSN × String :=
    if dbCfg.dsn = "" then
      if dbCfg.type_ = "oracle" then
        let serviceName := if dbCfg.serviceName = "" then "ORCL" else dbCfg.serviceName
        let connectTimeout := oracleConnectTimeout probeTimeoutNs
        (DSN.oracleBuildUrl dbCfg.host dbCfg.port serviceName dbCfg.user dbCfg.password
          [("CONNECT TIMEOUT", toString connectTimeout)], serviceName)
      else
        (DSN.str (dbCfg.user ++ ":" ++ dbCfg.password ++ "@tcp(" ++ dbCfg.host ++ ":" ++
          toString dbCfg.port ++ ")/?timeout=5s&readTimeout=5s&writeTimeout=5s"), "")
    else if dbCfg.type_ = "oracle" then
      (DSN.str dbCfg.dsn, if dbCfg.serviceName = "" then "ORCL" else dbCfg.serviceName)
    else
      (DSN.str dbCfg.dsn, "")
  let query := if dbCfg.query = "" then defaultQuery else dbCfg.query
  let labels := NewLabels dbCfg ip
  let m' := SetTargetInfo labels m
  ({ labels := labels, ip := ip, dsn := dsnService.1,
     serviceName := dsnService.2, query := query }, m')

/-! ### Probe executor (`prober.probeOnce`, prober.go lines 431-661)

One cycle is modelled as a pure function of the target's static data,
its mutable health state, and the environmental observations of the
cycle (ping/query outcomes and measured times). Metric updates and log
emissions are collected as ordered event lists. -/

/-- The metric calls a cycle can issue, in program order. -/
inductive MetricOp where
  | updatePing (ok : Bool) (durationSec : ℚ)
  | recordPingFailure
  | recordFailure
  | recordQueryFailure
  | recordReconnect (durationSec : ℚ)
  | updateQuery (ok : Bool) (durationSec : ℚ)
  | updateProbe (up : Bool) (durationSec : ℚ)
  deriving Repr, DecidableEq

def MetricOp.isReconnect : MetricOp → Bool
  | .recordReconnect _ => true
  | _ => false

def MetricOp.isUpdateQuery : MetricOp → Bool
  | .updateQuery _ _ => true
  | _ => false

def MetricOp.isRecordQueryFailure : MetricOp → Bool
  | .recordQueryFailure => true
  | _ => false

def MetricOp.isRecordPingFailure : MetricOp → Bool
  | .recordPingFailure => true
  | _ => false

def MetricOp.isRecordFailure : MetricOp → Bool
  | .recordFailure => true
  | _ => false

/-- zap log levels used by the prober (`Debugw` events are below the
production logger's Info threshold and are not emitted at runtime). -/
inductive LogLevel where
  | debug
  | info
  | warn
  deriving Repr, DecidableEq

/-- A structured log event: level, message, and key/value fields
(values rendered as strings). -/
structure LogEvent where
  level : LogLevel
  msg : String
  fields : List (String × String)
  deriving Repr, DecidableEq

/-- The per-cycle probe-outcome log event (`数据库探测失败` /
`数据库探测成功`, prober.go lines 609-660); the only events emitted at
or above the production logger's Info threshold. -/
def isOutcomeEvent (ev : LogEvent) : Bool :=
  ev.msg == "数据库探测失败" || ev.msg == "数据库探测成功"

/-- Static per-target data read by `probeOnce`: descriptor fields, the
resolved IP, the effective query, and the prober's configured interval
(nanoseconds) and timeout (its `%v` rendering, used only in message
text). -/
structure TargetCfg where
  name : String
  type_ : String
  host : String
  port : Int
  ip : String
  serviceName : String
  query : String
  probeIntervalNs : Int
  timeoutStr : String
  deriving Repr, DecidableEq

/-- The mutable health state of a `DBTarget` (prober.go lines 34-36):
`lastPingTime` in nanoseconds with 0 for the zero `time.Time`,
`lastUpStatus` with `none` for the initial nil pointer, and the
`LastError` message. -/
structure TargetState where
  lastPingTime : Int
  lastUpStatus : Option Bool
  lastErrMsg : Option String
  deriving Repr, DecidableEq

/-- Environmental observations of one cycle: the driver's ping result,
the measured ping duration in seconds, the wall-clock `now` (ns), the
driver's query+scan result, the measured query duration, and the total
cycle duration. -/
structure ProbeEnv where
  pingErr : Option GoError
  pingDurationSec : ℚ
  now : Int
  queryErr : Option GoError
  queryDurationSec : ℚ
  totalDurationSec : ℚ
  deriving Repr, DecidableEq

/-- Everything one `probeOnce` call produces. -/
structure ProbeResult where
  state : TargetState
  ops : List MetricOp
  logs : List LogEvent
  err : Option String
  up : Bool
  statusChanged : Bool
  deriving Repr, DecidableEq

/-- The `serviceName` defaulting repeated at prober.go lines 478-481,
504-507 and 651-654. -/
def effServiceName (cfg : TargetCfg) : String :=
  if cfg.serviceName = "" then "ORCL" else cfg.serviceName

/-- `prober.probeOnce` (prober.go lines 431-661). -/
def probeOnce (cfg : TargetCfg) (st : TargetState) (env : ProbeEnv) : ProbeResult :=
  let lastPingTime := st.lastPingTime
  let phase :
      List MetricOp × List LogEvent × Option String × Bool × Int :=
    match env.pingErr with
    | some e =>
      -- Ping 失败分支 (lines 450-510)
      let pingDuration := env.pingDurationSec
      let fs := analyzeError (some e) cfg.type_
      let failureStage := fs.1
      let errorDetails := fs.2
      let errMsg :=
        "[" ++ failureStage ++ "阶段失败] " ++ errorDetails ++
        " (host=" ++ cfg.host ++ ", port=" ++ toString cfg.port ++
        ", ip=" ++ cfg.ip ++ ", timeout=" ++ cfg.timeoutStr ++
        (if cfg.type_ = "oracle" then ", service_name=" ++ effServiceName cfg else "") ++ ")"
      let debugFields :=
        [("db_name", cfg.name), ("db_type", cfg.type_), ("db_host", cfg.host),
         ("db_port", toString cfg.port), ("db_ip", cfg.ip),
         ("failure_stage", failureStage),
         ("ping_duration_seconds", toString pingDuration),
         ("timeout", cfg.timeoutStr), ("error_type", e.tyName),
         ("error", errMsg), ("error_details", errorDetails),
         ("original_error", e.msg)] ++
        (if cfg.type_ = "oracle" then [("service_name", effServiceName cfg)] else [])
      ([MetricOp.updatePing false pingDuration, MetricOp.recordPingFailure,
        MetricOp.recordFailure],
       [{ level := .debug, msg := "数据库 Ping 失败", fields := debugFields }],
       some errMsg, false, lastPingTime)
    | none =>
      -- Ping 成功分支 (lines 511-584)
      let pingDuration := env.pingDurationSec
      let now := env.now
      let reconnectOps : List MetricOp :=
        if lastPingTime ≠ 0 ∧ now - lastPingTime > 2 * cfg.probeIntervalNs ∧
            pingDuration > 0.05 then
          [MetricOp.recordReconnect pingDuration]
        else []
      let queryDuration := env.queryDurationSec
      let queryPhase : List MetricOp × List LogEvent × Option String × Bool :=
        match env.queryErr with
        | some qe =>
          let fs := analyzeError (some qe) cfg.type_
          let failureStage :=
            if fs.1 = "未知阶段" ∨ fs.1 = "" then "SQL执行" else fs.1
          let errorDetails := fs.2
          let errMsg :=
            "[" ++ failureStage ++ "阶段失败] " ++ errorDetails ++
            " (query=" ++ cfg.query ++ ", host=" ++ cfg.host ++
            ", port=" ++ toString cfg.port ++ ", ip=" ++ cfg.ip ++
            ", timeout=" ++ cfg.timeoutStr ++ ")"
          let debugFields :=
            [("db_name", cfg.name), ("db_type", cfg.type_), ("db_host", cfg.host),
             ("db_port", toString cfg.port), ("db_ip", cfg.ip),
             ("query", cfg.query), ("failure_stage", failureStage),
             ("query_duration_seconds", toString queryDuration),
             ("timeout", cfg.timeoutStr), ("error_type", qe.tyName),
             ("error", errMsg), ("error_details", errorDetails),
             ("original_error", qe.msg)]
          ([MetricOp.recordQueryFailure, MetricOp.recordFailure],
           [{ level := .debug, msg := "数据库 SQL 查询失败", fields := debugFields }],
           some errMsg, false)
        | none => ([], [], none, true)
      let querySuccess := queryPhase.2.2.2
      ([MetricOp.updatePing true pingDuration] ++ reconnectOps ++ queryPhase.1 ++
        [MetricOp.updateQuery querySuccess queryDuration],
       queryPhase.2.1, queryPhase.2.2.1, querySuccess, now)
  let err := phase.2.2.1
  let up := phase.2.2.2.1
  let duration := env.totalDurationSec
  -- 状态更新与变化检测 (lines 589-604)
  let statusChanged :=
    match st.lastUpStatus with
    | none => true
    | some b => b != up
  let newState : TargetState :=
    { lastPingTime := phase.2.2.2.2, lastUpStatus := some up, lastErrMsg := err }
  -- 总体指标 (line 607)
  let ops := phase.1 ++ [MetricOp.updateProbe up duration]
  -- 每次探测都记录一条结果日志 (lines 609-660)
  let outcomeLog : LogEvent :=
    match err with
    | some errMsg =>
      let fs := analyzeError (some ⟨errMsg, "", "*errors.errorString"⟩) cfg.type_
      let logFields :=
        [("db_name", cfg.name), ("db_type", cfg.type_), ("db_host", cfg.host),
         ("db_port", toString cfg.port), ("db_ip", cfg.ip),
         ("duration_seconds", toString duration), ("sql", cfg.query),
         ("error_type", "*errors.errorString"), ("error", errMsg)] ++
        (if fs.1 ≠ "" then [("failure_stage", fs.1)] else []) ++
        (if fs.2 ≠ "" then [("error_details", fs.2)] else [])
      { level := if statusChanged then .warn else .info,
        msg := "数据库探测失败", fields := logFields }
    | none =>
      let logFields :=
        [("db_name", cfg.name), ("db_type", cfg.type_), ("db_host", cfg.host),
         ("db_port", toString cfg.port), ("db_ip", cfg.ip),
         ("duration_seconds", toString duration), ("sql", cfg.query)] ++
        (if cfg.type_ = "oracle" then [("service_name", effServiceName cfg)] else [])
      { level := .info, msg := "数据库探测成功", fields := logFields }
  { state := newState
    ops := ops
    logs := phase.2.1 ++ [outcomeLog]
    err := err
    up := up
    statusChanged := statusChanged }

/-! ### Shared concrete values and auxiliary definitions -/

/-- A metrics registry with no materialised children. -/
def emptyMetrics : MetricsState :=
  ⟨fun _ => none, fun _ => none, fun _ => none, fun _ => none, fun _ => none⟩

/-- A well-formed MySQL database entry (matches the README example). -/
def mysqlTestDB : DBConfig :=
  { name := "mysql-test", type_ := "mysql", host := "localhost", port := 3306,
    user := "root", password := "password", dsn := "", query := "",
    serviceName := "", project := "project-a", env := "prod", labels := [] }

/-- A configuration whose probe timeout (5s) exceeds its probe interval
(1s), with an otherwise valid database list. -/
def c1BadDurationsConfig : Config :=
  { listenAddress := ":9100", probeInterval := 1000000000,
    probeTimeout := 5000000000, databases := [mysqlTestDB] }

/-- `true` when none of the classifier's rules fires for error `e` with
family `ty`: the disjunction of every branch condition of
`analyzeError`, negated. -/
def noRuleMatches (e : GoError) (ty : String) : Bool :=
  let m := strLower e.msg
  !((containsSub m "connection refused" || containsSub m "no such host" ||
     containsSub m "network is unreachable" ||
     (containsSub m "timeout" && containsSub m "dial")) ||
    (containsSub m "eof" || containsSub m "end of file") ||
    (containsSub m "access denied" || containsSub m "invalid credentials" ||
     containsSub m "authentication failed" || containsSub m "ora-01017" ||
     containsSub m "ora-1017" || containsSub m "1045") ||
    (containsSub m "sql" || containsSub m "syntax error" ||
     containsSub m "table" || containsSub m "column") ||
    (ty = "oracle" && (containsSub m "ora-01013" || containsSub m "ora-1013" ||
      containsSub m "user requested cancel")) ||
    (ty = "oracle" && containsSub m "ora-") ||
    ((ty = "mysql" || ty = "tidb") && (containsSub m "error" &&
      (containsSub m "1045" || containsSub m "2003" || containsSub m "2006"))) ||
    (containsSub m "context deadline exceeded" || containsSub m "timeout"))

/-- Modelled from the spec sentence "a connect-timeout parameter is
derived as `clamp(2 × probe_timeout_seconds, 3, 10)` seconds": the
clamp taken over exact rationals, with no integer truncation. Used only
to compare the spec's formula against the code's computation. -/
def specConnectTimeoutQ (probeTimeoutNs : Int) : ℚ :=
  max 3 (min 10 ((probeTimeoutNs : ℚ) / 1000000000 * 2))

/-- A concrete target configuration (30s interval, 5s timeout). -/
def wCfg : TargetCfg :=
  { name := "mysql-test", type_ := "mysql", host := "localhost", port := 3306,
    ip := "127.0.0.1", serviceName := "", query := "SELECT 1",
    probeIntervalNs := 30000000000, timeoutStr := "5s" }

/-- Fresh target state: never pinged, no previous status. -/
def wStFirst : TargetState := { lastPingTime := 0, lastUpStatus := none, lastErrMsg := none }

/-- A cycle whose ping fails with connection refused. -/
def wEnvPingFail : ProbeEnv :=
  { pingErr := some ⟨"dial tcp: connection refused", "", "*net.OpError"⟩,
    pingDurationSec := 1/5, now := 1000, queryErr := none,
    queryDurationSec := 0, totalDurationSec := 21/100 }

/-- State after a successful ping at time 100ns. -/
def wStPinged : TargetState :=
  { lastPingTime := 100, lastUpStatus := some true, lastErrMsg := none }

/-- A successful cycle far beyond twice the interval, slow ping. -/
def wEnvLateSlow : ProbeEnv :=
  { pingErr := none, pingDurationSec := 3/50, now := 100 + 2 * 30000000000 + 1,
    queryErr := none, queryDurationSec := 1/50, totalDurationSec := 1/10 }

/-- A follow-up successful cycle within twice the interval. -/
def wEnvSoon : ProbeEnv :=
  { pingErr := none, pingDurationSec := 3/50, now := 100 + 2 * 30000000000 + 2,
    queryErr := none, queryDurationSec := 1/50, totalDurationSec := 1/10 }

/-- A concrete fully successful cycle. -/
def wEnvOK : ProbeEnv :=
  { pingErr := none, pingDurationSec := 1/100, now := 1000, queryErr := none,
    queryDurationSec := 1/50, totalDurationSec := 3/100 }

/-! ### Lemmas about the string helpers -/

theorem strStarts_iff : ∀ (s p : List Char), strStarts s p = true ↔ p <+: s
  | _, [] => by simp [strStarts, List.nil_prefix]
  | [], _ :: _ => by simp [strStarts, List.prefix_nil]
  | c :: s, d :: p => by
    simp only [strStarts, Bool.and_eq_true, decide_eq_true_eq, List.cons_prefix_cons,
      strStarts_iff s p]
    exact ⟨fun ⟨h1, h2⟩ => ⟨h1.symm, h2⟩, fun ⟨h1, h2⟩ => ⟨h1.symm, h2⟩⟩

theorem strFind_isSome_iff (p : List Char) :
    ∀ (s : List Char), (strFind p s).isSome = true ↔ p <:+: s
  | [] => by
    simp only [strFind]
    split <;> simp_all [List.infix_nil]
  | c :: t => by
    simp only [strFind]
    split
    · simp_all [List.infix_cons_iff, (strStarts_iff (c :: t) p).mp]
    · have hns : ¬ p <+: c :: t := by
        rw [← strStarts_iff]
        simp_all
      simp [Option.isSome_map, strFind_isSome_iff p t, List.infix_cons_iff, hns]

theorem containsSub_iff (s pat : String) :
    containsSub s pat = true ↔ pat.toList <:+: s.toList := by
  unfold containsSub
  exact strFind_isSome_iff _ _

theorem containsSub_append_left (a b pat : String) (h : containsSub a pat = true) :
    containsSub (a ++ b) pat = true := by
  rw [containsSub_iff] at h ⊢
  have : a.toList <+: (a ++ b).toList := ⟨b.toList, rfl⟩
  exact h.trans this.isInfix

theorem containsSub_append_right (a b pat : String) (h : containsSub b pat = true) :
    containsSub (a ++ b) pat = true := by
  rw [containsSub_iff] at h ⊢
  have : b.toList <:+ (a ++ b).toList := ⟨a.toList, rfl⟩
  exact h.trans this.isInfix

theorem containsSub_withUnderlying (d m u pat : String)
    (h : containsSub d pat = true) :
    containsSub (withUnderlying d m u) pat = true := by
  unfold withUnderlying
  split
  · exact containsSub_append_left _ _ _
      (containsSub_append_left _ _ _ (containsSub_append_left _ _ _ h))
  · exact h

theorem str_append_ne_empty_left (a b : String) (h : a ≠ "") : a ++ b ≠ "" := by
  intro hc
  apply h
  have hd : a.toList ++ b.toList = [] := congrArg String.toList hc
  rcases List.append_eq_nil.mp hd with ⟨ha, _⟩
  cases a
  simp_all [String.toList]

theorem withUnderlying_ne_empty (d m u : String) (h : d ≠ "") :
    withUnderlying d m u ≠ "" := by
  unfold withUnderlying
  split
  · exact str_append_ne_empty_left _ _
      (str_append_ne_empty_left _ _ (str_append_ne_empty_left _ _ h))
  · exact h

/-! ### Lemmas about the failure classifier -/

theorem analyzeError_stage_ne_empty (e : GoError) (ty : String) :
    (analyzeError (some e) ty).1 ≠ "" := by
  simp only [analyzeError]
  repeat' split
  all_goals exact of_decide_eq_true rfl

theorem analyzeError_details_ne_empty (e : GoError) (ty : String) :
    (analyzeError (some e) ty).2 ≠ "" := by
  simp only [analyzeError]
  repeat' split
  all_goals refine withUnderlying_ne_empty _ _ _ ?_
  all_goals repeat' apply str_append_ne_empty_left
  all_goals exact of_decide_eq_true rfl

/-! ### Claim theorems -/

/-- Counterexample for C1: a configuration whose probe timeout (5s)
exceeds its probe interval (1s) — and variants with zero or negative
durations — is accepted by `Validate` (it returns no error), contrary
to the claim that such configurations are rejected. -/
theorem C1_counterexample_bad_durations_accepted :
    c1BadDurationsConfig.probeTimeout > c1BadDurationsConfig.probeInterval ∧
    Validate c1BadDurationsConfig = none ∧
    Validate { c1BadDurationsConfig with probeInterval := 0, probeTimeout := 0 } = none ∧
    Validate { c1BadDurationsConfig with probeInterval := -1, probeTimeout := -1 } = none :=
  ⟨by decide, rfl, rfl, rfl⟩

/-- C1 (amended): `Validate` never inspects the probe interval or
probe timeout — its result is invariant under changing the two
durations, so configurations violating the claimed duration
constraints are accepted whenever the databases list passes its
checks. -/
theorem C1_validate_ignores_durations :
    ∀ (la : String) (i t i' t' : Int) (dbs : List DBConfig),
      Validate { listenAddress := la, probeInterval := i, probeTimeout := t,
                 databases := dbs } =
      Validate { listenAddress := la, probeInterval := i', probeTimeout := t',
                 databases := dbs } :=
  fun _ _ _ _ _ _ => rfl

/-- C5: any error whose lowercased text contains "connection refused",
"no such host" or "network is unreachable", or contains both "timeout"
and "dial", is classified as the transport (`TCP连接`) stage, for every
database family — the transport rule is evaluated first. -/
theorem C5_transport_stage_first (e : GoError) (ty : String)
    (h : containsSub (strLower e.msg) "connection refused" = true ∨
         containsSub (strLower e.msg) "no such host" = true ∨
         containsSub (strLower e.msg) "network is unreachable" = true ∨
         (containsSub (strLower e.msg) "timeout" = true ∧
          containsSub (strLower e.msg) "dial" = true)) :
    (analyzeError (some e) ty).1 = "TCP连接" := by
  simp only [analyzeError]
  rcases h with h | h | h | ⟨h1, h2⟩
  · simp [h]
  · simp [h]
  · simp [h]
  · simp [h1, h2]

/-- Witness for C5 at a concrete "connection refused" error. -/
theorem C5_transport_stage_first_witness :
    (containsSub (strLower "dial tcp 10.0.0.1:3306: connect: connection refused")
      "connection refused" = true) ∧
    (analyzeError
      (some ⟨"dial tcp 10.0.0.1:3306: connect: connection refused", "", "*net.OpError"⟩)
      "mysql").1 = "TCP连接" :=
  ⟨by decide,
   C5_transport_stage_first
     ⟨"dial tcp 10.0.0.1:3306: connect: connection refused", "", "*net.OpError"⟩
     "mysql" (Or.inl (by decide))⟩

/-- C6: for an Oracle-family error containing the ORA-01013
("operation cancelled by timeout" / "user requested cancel") code that
matches none of the four earlier classifier rules, the stage is `超时`
and the detail recommends increasing `probe_timeout`. -/
theorem C6_oracle_cancel_timeout_stage (e : GoError)
    (h1 : (containsSub (strLower e.msg) "connection refused" ||
           containsSub (strLower e.msg) "no such host" ||
           containsSub (strLower e.msg) "network is unreachable" ||
           (containsSub (strLower e.msg) "timeout" &&
            containsSub (strLower e.msg) "dial")) = false)
    (h2 : (containsSub (strLower e.msg) "eof" ||
           containsSub (strLower e.msg) "end of file") = false)
    (h3 : (containsSub (strLower e.msg) "access denied" ||
           containsSub (strLower e.msg) "invalid credentials" ||
           containsSub (strLower e.msg) "authentication failed" ||
           containsSub (strLower e.msg) "ora-01017" ||
           containsSub (strLower e.msg) "ora-1017" ||
           containsSub (strLower e.msg) "1045") = false)
    (h4 : (containsSub (strLower e.msg) "sql" ||
           containsSub (strLower e.msg) "syntax error" ||
           containsSub (strLower e.msg) "table" ||
           containsSub (strLower e.msg) "column") = false)
    (h5 : (containsSub (strLower e.msg) "ora-01013" ||
           containsSub (strLower e.msg) "ora-1013" ||
           containsSub (strLower e.msg) "user requested cancel") = true) :
    (analyzeError (some e) "oracle").1 = "超时" ∧
    containsSub (analyzeError (some e) "oracle").2 "建议增加 probe_timeout 配置" = true := by
  have hred : analyzeError (some e) "oracle" =
      ("超时", withUnderlying
        ("操作超时被取消 (ORA-01013): " ++ e.msg ++
          "。可能原因：1) 超时时间过短 2) 网络延迟较高 3) 数据库响应慢。建议增加 probe_timeout 配置")
        e.msg e.underlying) := by
    simp [analyzeError, h1, h2, h3, h4, h5]
  rw [hred]
  refine ⟨rfl, ?_⟩
  exact containsSub_withUnderlying _ _ _ _
    (containsSub_append_right _ _ _ (of_decide_eq_true rfl))

/-- Witness for C6 at the literal ORA-01013 error text. -/
theorem C6_oracle_cancel_timeout_stage_witness :
    ((analyzeError
        (some ⟨"ORA-01013: user requested cancel of current operation", "", "*network.OracleError"⟩)
        "oracle").1 = "超时" ∧
      containsSub
        (analyzeError
          (some ⟨"ORA-01013: user requested cancel of current operation", "", "*network.OracleError"⟩)
          "oracle").2 "建议增加 probe_timeout 配置" = true) :=
  C6_oracle_cancel_timeout_stage
    ⟨"ORA-01013: user requested cancel of current operation", "", "*network.OracleError"⟩
    (by decide) (by decide) (by decide) (by decide) (by decide)

/-- Decomposition of `noRuleMatches`: each of the eight branch
conditions of `analyzeError` is false, stated in the exact form the
conditions take in `analyzeError`. -/
theorem noRuleMatches_spec (e : GoError) (ty : String) (h : noRuleMatches e ty = true) :
    (containsSub (strLower e.msg) "connection refused" ||
     containsSub (strLower e.msg) "no such host" ||
     containsSub (strLower e.msg) "network is unreachable" ||
     (containsSub (strLower e.msg) "timeout" && containsSub (strLower e.msg) "dial")) = false ∧
    (containsSub (strLower e.msg) "eof" || containsSub (strLower e.msg) "end of file") = false ∧
    (containsSub (strLower e.msg) "access denied" ||
     containsSub (strLower e.msg) "invalid credentials" ||
     containsSub (strLower e.msg) "authentication failed" ||
     containsSub (strLower e.msg) "ora-01017" ||
     containsSub (strLower e.msg) "ora-1017" ||
     containsSub (strLower e.msg) "1045") = false ∧
    (containsSub (strLower e.msg) "sql" || containsSub (strLower e.msg) "syntax error" ||
     containsSub (strLower e.msg) "table" || containsSub (strLower e.msg) "column") = false ∧
    (decide (ty = "oracle") &&
      (containsSub (strLower e.msg) "ora-01013" || containsSub (strLower e.msg) "ora-1013" ||
       containsSub (strLower e.msg) "user requested cancel")) = false ∧
    (decide (ty = "oracle") && containsSub (strLower e.msg) "ora-") = false ∧
    ((decide (ty = "mysql") || decide (ty = "tidb")) &&
      (containsSub (strLower e.msg) "error" &&
       (containsSub (strLower e.msg) "1045" || containsSub (strLower e.msg) "2003" ||
        containsSub (strLower e.msg) "2006"))) = false ∧
    (containsSub (strLower e.msg) "context deadline exceeded" ||
     containsSub (strLower e.msg) "timeout") = false := by
  simp only [noRuleMatches, Bool.not_eq_true', Bool.or_eq_false_iff, and_assoc] at h
  simp only [Bool.or_eq_false_iff, and_assoc]
  exact h

/-- C7: the classifier is a pure function — re-running it on the same
(error, family) pair gives the same (stage, detail) pair — and it is
total: a non-nil error always gets a non-empty stage and detail, and
when no rule matches the stage is the `未知阶段` fallback bucket. -/
theorem C7_classifier_deterministic_total (err : Option GoError) (ty : String) :
    analyzeError err ty = analyzeError err ty ∧
    (∀ e, err = some e →
      (analyzeError err ty).1 ≠ "" ∧ (analyzeError err ty).2 ≠ "") ∧
    (∀ e, err = some e → noRuleMatches e ty = true →
      (analyzeError err ty).1 = "未知阶段") := by
  refine ⟨rfl, ?_, ?_⟩
  · rintro e rfl
    exact ⟨analyzeError_stage_ne_empty e ty, analyzeError_details_ne_empty e ty⟩
  · rintro e rfl h
    obtain ⟨g1, g2, g3, g4, g5, g6, g7, g8⟩ := noRuleMatches_spec e ty h
    simp only [analyzeError]
    simp [g1, g2, g3, g4, g5, g6, g7, g8]

/-- Witness for C7 at a concrete unclassifiable error. -/
theorem C7_classifier_deterministic_total_witness :
    (analyzeError (some ⟨"weird glitch", "", "*errors.errorString"⟩) "mysql" =
      analyzeError (some ⟨"weird glitch", "", "*errors.errorString"⟩) "mysql") ∧
    ((analyzeError (some ⟨"weird glitch", "", "*errors.errorString"⟩) "mysql").1 ≠ "" ∧
     (analyzeError (some ⟨"weird glitch", "", "*errors.errorString"⟩) "mysql").2 ≠ "") ∧
    (analyzeError (some ⟨"weird glitch", "", "*errors.errorString"⟩) "mysql").1 = "未知阶段" :=
  ⟨(C7_classifier_deterministic_total
      (some ⟨"weird glitch", "", "*errors.errorString"⟩) "mysql").1,
   (C7_classifier_deterministic_total
      (some ⟨"weird glitch", "", "*errors.errorString"⟩) "mysql").2.1 _ rfl,
   (C7_classifier_deterministic_total
      (some ⟨"weird glitch", "", "*errors.errorString"⟩) "mysql").2.2 _ rfl (by decide)⟩

/-- C8: immediately after target construction — i.e. after the
`metrics.SetTargetInfo` call inside `newTarget` and before any probe
cycle — the four failure/reconnect counters for the target's label-set
exist with value 0 (via the explicit `Add(0)`) and the static
target-info gauge is 1. -/
theorem C8_counters_initialized_at_construction (dbCfg : DBConfig) (t : Int)
    (ip dq : String) (m : MetricsState)
    (hf : m.failuresTotal (NewLabels dbCfg ip) = none)
    (hp : m.pingFailuresTotal (NewLabels dbCfg ip) = none)
    (hq : m.queryFailuresTotal (NewLabels dbCfg ip) = none)
    (hr : m.reconnectsTotal (NewLabels dbCfg ip) = none) :
    (newTarget dbCfg t ip dq m).1.labels = NewLabels dbCfg ip ∧
    (newTarget dbCfg t ip dq m).2.targetInfo (NewLabels dbCfg ip) = some 1 ∧
    (newTarget dbCfg t ip dq m).2.failuresTotal (NewLabels dbCfg ip) = some 0 ∧
    (newTarget dbCfg t ip dq m).2.pingFailuresTotal (NewLabels dbCfg ip) = some 0 ∧
    (newTarget dbCfg t ip dq m).2.queryFailuresTotal (NewLabels dbCfg ip) = some 0 ∧
    (newTarget dbCfg t ip dq m).2.reconnectsTotal (NewLabels dbCfg ip) = some 0 := by
  simp [newTarget, SetTargetInfo, gaugeSet, counterAdd, hf, hp, hq, hr]

/-- Witness for C8: a fresh registry and the README MySQL target. -/
theorem C8_counters_initialized_at_construction_witness :
    (emptyMetrics.failuresTotal (NewLabels mysqlTestDB "127.0.0.1") = none ∧
     emptyMetrics.pingFailuresTotal (NewLabels mysqlTestDB "127.0.0.1") = none ∧
     emptyMetrics.queryFailuresTotal (NewLabels mysqlTestDB "127.0.0.1") = none ∧
     emptyMetrics.reconnectsTotal (NewLabels mysqlTestDB "127.0.0.1") = none) ∧
    (newTarget mysqlTestDB 5000000000 "127.0.0.1" "SELECT 1" emptyMetrics).2.failuresTotal
      (NewLabels mysqlTestDB "127.0.0.1") = some 0 ∧
    (newTarget mysqlTestDB 5000000000 "127.0.0.1" "SELECT 1" emptyMetrics).2.targetInfo
      (NewLabels mysqlTestDB "127.0.0.1") = some 1 :=
  ⟨⟨rfl, rfl, rfl, rfl⟩,
   (C8_counters_initialized_at_construction mysqlTestDB 5000000000 "127.0.0.1" "SELECT 1"
      emptyMetrics rfl rfl rfl rfl).2.2.1,
   (C8_counters_initialized_at_construction mysqlTestDB 5000000000 "127.0.0.1" "SELECT 1"
      emptyMetrics rfl rfl rfl rfl).2.1⟩

/-- The code truncates `ProbeTimeout.Seconds() * 2` to an integer
before clamping; the result is the integer clamp of that truncation. -/
theorem oracleConnectTimeout_eq_clamp (t : Int) :
    oracleConnectTimeout t = max 3 (min 10 (truncInt ((t : ℚ) / 1000000000 * 2))) := by
  unfold oracleConnectTimeout
  dsimp only
  split <;> split <;> omega

/-- Counterexample for C9: with probe timeout 2.25s, the code's
connect-timeout parameter is 4 (the DSN carries "4"), while the spec's
formula `clamp(2 × probe_timeout_seconds, 3, 10)` yields 4.5. -/
theorem C9_counterexample_fractional_timeout :
    oracleConnectTimeout 2250000000 = 4 ∧
    specConnectTimeoutQ 2250000000 = 9 / 2 ∧
    ((oracleConnectTimeout 2250000000 : ℚ) ≠ specConnectTimeoutQ 2250000000) ∧
    (newTarget { mysqlTestDB with name := "ora-test", type_ := "oracle", port := 1521 }
        2250000000 "10.0.0.5" "SELECT 1 FROM dual" emptyMetrics).1.dsn =
      DSN.oracleBuildUrl "localhost" 1521 "ORCL" "root" "password"
        [("CONNECT TIMEOUT", "4")] := by
  refine ⟨?_, ?_, ?_, ?_⟩
  · rw [oracleConnectTimeout_eq_clamp]
    norm_num [truncInt]
  · norm_num [specConnectTimeoutQ]
  · rw [oracleConnectTimeout_eq_clamp]
    norm_num [truncInt, specConnectTimeoutQ]
  · rw [show (newTarget { mysqlTestDB with name := "ora-test", type_ := "oracle", port := 1521 }
        2250000000 "10.0.0.5" "SELECT 1 FROM dual" emptyMetrics).1.dsn =
      DSN.oracleBuildUrl "localhost" 1521 "ORCL" "root" "password"
        [("CONNECT TIMEOUT", toString (oracleConnectTimeout 2250000000))] from rfl]
    rw [oracleConnectTimeout_eq_clamp]
    norm_num [truncInt]
    rfl

/-- C9 (amended): for an Oracle target without an explicit DSN, the
connect-timeout parameter equals
`clamp(trunc(2 × probe_timeout_seconds), 3, 10)` — the doubled timeout
is truncated to an integer before clamping — so it is at least 3, at
most 10, and equals the truncated doubled timeout whenever that lies in
[3, 10]; the service name defaults to "ORCL" when unspecified. -/
theorem C9_oracle_connect_timeout_amended (dbCfg : DBConfig) (t : Int)
    (ip dq : String) (m : MetricsState)
    (hty : dbCfg.type_ = "oracle") (hdsn : dbCfg.dsn = "") :
    ((newTarget dbCfg t ip dq m).1.dsn =
      DSN.oracleBuildUrl dbCfg.host dbCfg.port
        (if dbCfg.serviceName = "" then "ORCL" else dbCfg.serviceName)
        dbCfg.user dbCfg.password
        [("CONNECT TIMEOUT", toString (oracleConnectTimeout t))]) ∧
    ((newTarget dbCfg t ip dq m).1.serviceName =
      (if dbCfg.serviceName = "" then "ORCL" else dbCfg.serviceName)) ∧
    (oracleConnectTimeout t = max 3 (min 10 (truncInt ((t : ℚ) / 1000000000 * 2)))) ∧
    (3 ≤ oracleConnectTimeout t ∧ oracleConnectTimeout t ≤ 10) ∧
    ((3 ≤ truncInt ((t : ℚ) / 1000000000 * 2) ∧ truncInt ((t : ℚ) / 1000000000 * 2) ≤ 10) →
      oracleConnectTimeout t = truncInt ((t : ℚ) / 1000000000 * 2)) := by
  refine ⟨?_, ?_, oracleConnectTimeout_eq_clamp t, ?_, ?_⟩
  · simp [newTarget, hty, hdsn]
  · simp [newTarget, hty, hdsn]
  · rw [oracleConnectTimeout_eq_clamp]
    constructor <;> omega
  · intro hb
    rw [oracleConnectTimeout_eq_clamp]
    omega

/-- Witness for C9 (amended) at probe timeout 5s: parameter 10. -/
theorem C9_oracle_connect_timeout_amended_witness :
    (newTarget { mysqlTestDB with name := "ora-test", type_ := "oracle", port := 1521 }
        5000000000 "10.0.0.5" "SELECT 1 FROM dual" emptyMetrics).1.dsn =
      DSN.oracleBuildUrl "localhost" 1521 "ORCL" "root" "password"
        [("CONNECT TIMEOUT", toString (oracleConnectTimeout 5000000000))] :=
  (C9_oracle_connect_timeout_amended
    { mysqlTestDB with name := "ora-test", type_ := "oracle", port := 1521 }
    5000000000 "10.0.0.5" "SELECT 1 FROM dual" emptyMetrics rfl rfl).1

/-- C3: when the ping fails, the cycle records the ping duration with
ping-status down, increments the ping-failure and overall-failure
counters exactly once each, never touches the query gauges or the
query-failure counter, never emits the query-failure diagnostic, marks
the overall outcome down, and classifies the error (the classified
stage appears in the ping-failure diagnostic's fields). -/
theorem C3_ping_failure_skips_query (cfg : TargetCfg) (st : TargetState)
    (env : ProbeEnv) (e : GoError) (h : env.pingErr = some e) :
    (probeOnce cfg st env).ops =
      [MetricOp.updatePing false env.pingDurationSec, MetricOp.recordPingFailure,
       MetricOp.recordFailure, MetricOp.updateProbe false env.totalDurationSec] ∧
    (probeOnce cfg st env).up = false ∧
    ((probeOnce cfg st env).ops.countP MetricOp.isUpdateQuery = 0) ∧
    ((probeOnce cfg st env).ops.countP MetricOp.isRecordQueryFailure = 0) ∧
    ((probeOnce cfg st env).ops.countP MetricOp.isRecordPingFailure = 1) ∧
    ((probeOnce cfg st env).ops.countP MetricOp.isRecordFailure = 1) ∧
    (∀ ev ∈ (probeOnce cfg st env).logs, ev.msg ≠ "数据库 SQL 查询失败") ∧
    (∃ ev ∈ (probeOnce cfg st env).logs,
      ("failure_stage", (analyzeError (some e) cfg.type_).1) ∈ ev.fields) := by
  obtain ⟨pe, pd, now, qe, qd, td⟩ := env
  simp only at h
  subst h
  refine ⟨?_, ?_, ?_, ?_, ?_, ?_, ?_, ?_⟩
  · simp [probeOnce]
  · simp [probeOnce]
  · simp [probeOnce, List.countP_cons, MetricOp.isUpdateQuery]
  · simp [probeOnce, List.countP_cons, MetricOp.isRecordQueryFailure]
  · simp [probeOnce, List.countP_cons, MetricOp.isRecordPingFailure,
      MetricOp.isUpdateQuery]
  · simp [probeOnce, List.countP_cons, MetricOp.isRecordFailure]
  · simp [probeOnce]
  · simp [probeOnce]

/-- Witness for C3 at a concrete refused connection. -/
theorem C3_ping_failure_skips_query_witness :
    wEnvPingFail.pingErr = some ⟨"dial tcp: connection refused", "", "*net.OpError"⟩ ∧
    (probeOnce wCfg wStFirst wEnvPingFail).up = false ∧
    (probeOnce wCfg wStFirst wEnvPingFail).ops.countP MetricOp.isUpdateQuery = 0 :=
  ⟨rfl,
   (C3_ping_failure_skips_query wCfg wStFirst wEnvPingFail _ rfl).2.1,
   (C3_ping_failure_skips_query wCfg wStFirst wEnvPingFail _ rfl).2.2.1⟩

/-- On a successful ping, the number of reconnect events the cycle
records is 1 when the heuristic's condition holds and 0 otherwise. -/
theorem probeOnce_reconnect_count (cfg : TargetCfg) (st : TargetState)
    (pd : ℚ) (now : Int) (qe : Option GoError) (qd td : ℚ) :
    (probeOnce cfg st ⟨none, pd, now, qe, qd, td⟩).ops.countP MetricOp.isReconnect =
      if st.lastPingTime ≠ 0 ∧ now - st.lastPingTime > 2 * cfg.probeIntervalNs ∧
          pd > 0.05 then 1 else 0 := by
  cases qe <;>
    (simp [probeOnce, List.countP_append, List.countP_cons, MetricOp.isReconnect]
     split <;> simp [List.countP_cons, MetricOp.isReconnect])

/-- C2: on a successful ping, a reconnect event is recorded exactly
when `lastPingTime` is non-zero, `now - lastPingTime` exceeds twice the
probe interval, and the ping duration exceeds 0.05s; `lastPingTime` is
set to `now` on success and left unchanged on failure, no reconnect is
ever recorded on a failed ping, and two consecutive successful pings
within twice the interval of each other record no reconnect. -/
theorem C2_reconnect_heuristic (cfg : TargetCfg) (st : TargetState)
    (env env2 : ProbeEnv) :
    (env.pingErr = none →
      ((probeOnce cfg st env).ops.countP MetricOp.isReconnect =
        if st.lastPingTime ≠ 0 ∧ env.now - st.lastPingTime > 2 * cfg.probeIntervalNs ∧
            env.pingDurationSec > 0.05 then 1 else 0) ∧
      (probeOnce cfg st env).state.lastPingTime = env.now) ∧
    (env.pingErr ≠ none →
      ((probeOnce cfg st env).ops.countP MetricOp.isReconnect = 0 ∧
       (probeOnce cfg st env).state.lastPingTime = st.lastPingTime)) ∧
    (env.pingErr = none → env2.pingErr = none →
      env2.now - env.now ≤ 2 * cfg.probeIntervalNs →
      (probeOnce cfg (probeOnce cfg st env).state env2).ops.countP
        MetricOp.isReconnect = 0) := by
  obtain ⟨pe, pd, now, qe, qd, td⟩ := env
  obtain ⟨pe2, pd2, now2, qe2, qd2, td2⟩ := env2
  refine ⟨?_, ?_, ?_⟩
  · rintro rfl
    exact ⟨probeOnce_reconnect_count cfg st pd now qe qd td,
           by cases qe <;> simp [probeOnce]⟩
  · intro hne
    cases pe with
    | none => exact absurd rfl hne
    | some e => constructor <;> simp [probeOnce, MetricOp.isReconnect]
  · rintro rfl rfl hle
    have hst : (probeOnce cfg st ⟨none, pd, now, qe, qd, td⟩).state.lastPingTime = now := by
      cases qe <;> simp [probeOnce]
    have hnc : ¬((probeOnce cfg st ⟨none, pd, now, qe, qd, td⟩).state.lastPingTime ≠ 0 ∧
        now2 - (probeOnce cfg st ⟨none, pd, now, qe, qd, td⟩).state.lastPingTime >
          2 * cfg.probeIntervalNs ∧ pd2 > 0.05) := by
      rw [hst]
      rintro ⟨_, hgt, _⟩
      simp only at hle
      omega
    rw [probeOnce_reconnect_count, if_neg hnc]

/-- Witness for C2: the late slow ping records a reconnect; the
follow-up cycle within the window records none. -/
theorem C2_reconnect_heuristic_witness :
    ((probeOnce wCfg wStPinged wEnvLateSlow).ops.countP MetricOp.isReconnect =
      if wStPinged.lastPingTime ≠ 0 ∧
          wEnvLateSlow.now - wStPinged.lastPingTime > 2 * wCfg.probeIntervalNs ∧
          wEnvLateSlow.pingDurationSec > 0.05 then 1 else 0) ∧
    (probeOnce wCfg wStPinged wEnvLateSlow).state.lastPingTime = wEnvLateSlow.now ∧
    (probeOnce wCfg (probeOnce wCfg wStPinged wEnvLateSlow).state wEnvSoon).ops.countP
      MetricOp.isReconnect = 0 :=
  ⟨((C2_reconnect_heuristic wCfg wStPinged wEnvLateSlow wEnvSoon).1 rfl).1,
   ((C2_reconnect_heuristic wCfg wStPinged wEnvLateSlow wEnvSoon).1 rfl).2,
   (C2_reconnect_heuristic wCfg wStPinged wEnvLateSlow wEnvSoon).2.2 rfl rfl (by decide)⟩

/-- Prefix extension: a prefix of `s` is a prefix of `s ++ b`. -/
theorem prefix_extend (l : List Char) (s b : String) (h : l <+: s.toList) :
    l <+: (s ++ b).toList :=
  h.trans ⟨b.toList, rfl⟩

/-- C10: when the ping succeeds but the query fails and the classifier
yields the unknown stage (`未知阶段`) or an empty stage, the failure
stage recorded in the constructed error message and in the query
diagnostic's fields is replaced by the query-execution stage
(`SQL执行`). -/
theorem C10_unknown_query_stage_replaced (cfg : TargetCfg) (st : TargetState)
    (env : ProbeEnv) (qe : GoError)
    (hp : env.pingErr = none) (hq : env.queryErr = some qe)
    (hstage : (analyzeError (some qe) cfg.type_).1 = "未知阶段" ∨
              (analyzeError (some qe) cfg.type_).1 = "") :
    (probeOnce cfg st env).err =
      some ("[" ++ "SQL执行" ++ "阶段失败] " ++ (analyzeError (some qe) cfg.type_).2 ++
        " (query=" ++ cfg.query ++ ", host=" ++ cfg.host ++ ", port=" ++
        toString cfg.port ++ ", ip=" ++ cfg.ip ++ ", timeout=" ++ cfg.timeoutStr ++ ")") ∧
    (∀ s, (probeOnce cfg st env).err = some s →
      strStarts s.toList ("[SQL执行阶段失败] ".toList) = true) ∧
    (∃ ev ∈ (probeOnce cfg st env).logs, ev.msg = "数据库 SQL 查询失败" ∧
      ("failure_stage", "SQL执行") ∈ ev.fields) := by
  obtain ⟨pe, pd, now, qe', qd, td⟩ := env
  simp only at hp hq
  subst hp
  subst hq
  have herr : (probeOnce cfg st ⟨none, pd, now, some qe, qd, td⟩).err =
      some ("[" ++ "SQL执行" ++ "阶段失败] " ++ (analyzeError (some qe) cfg.type_).2 ++
        " (query=" ++ cfg.query ++ ", host=" ++ cfg.host ++ ", port=" ++
        toString cfg.port ++ ", ip=" ++ cfg.ip ++ ", timeout=" ++ cfg.timeoutStr ++ ")") := by
    simp [probeOnce, hstage]
  refine ⟨herr, ?_, ?_⟩
  · intro s hs
    rw [herr, Option.some.injEq] at hs
    subst hs
    rw [strStarts_iff]
    iterate 12 apply prefix_extend
    exact ⟨[], by decide⟩
  · simp [probeOnce, hstage]

/-- Witness for C10 at an unclassifiable query error. -/
theorem C10_unknown_query_stage_replaced_witness :
    ((analyzeError (some ⟨"weird glitch2", "", "*errors.errorString"⟩) wCfg.type_).1 =
      "未知阶段") ∧
    (∃ ev ∈ (probeOnce wCfg wStFirst
        { wEnvOK with queryErr := some ⟨"weird glitch2", "", "*errors.errorString"⟩ }).logs,
      ev.msg = "数据库 SQL 查询失败" ∧ ("failure_stage", "SQL执行") ∈ ev.fields) :=
  ⟨by decide,
   (C10_unknown_query_stage_replaced wCfg wStFirst
      { wEnvOK with queryErr := some ⟨"weird glitch2", "", "*errors.errorString"⟩ }
      ⟨"weird glitch2", "", "*errors.errorString"⟩ rfl rfl (Or.inl (by decide))).2.2⟩

/-- Counterexample for C4: on the first cycle with a fully successful
probe, the status counts as changed, yet the single probe-outcome log
event is emitted at the routine Info level, not the elevated level —
the code elevates severity only for failure cycles. -/
theorem C4_counterexample_success_change_logs_info :
    (probeOnce wCfg wStFirst wEnvOK).statusChanged = true ∧
    (probeOnce wCfg wStFirst wEnvOK).err = none ∧
    (probeOnce wCfg wStFirst wEnvOK).logs.countP isOutcomeEvent = 1 ∧
    (probeOnce wCfg wStFirst wEnvOK).logs.countP
      (fun ev => isOutcomeEvent ev && ev.level == LogLevel.warn) = 0 := by
  refine ⟨rfl, rfl, ?_, ?_⟩ <;>
    simp [probeOnce, isOutcomeEvent, wCfg, wStFirst, wEnvOK]

/-- C4 (amended): every cycle emits exactly one non-debug log event —
the probe-outcome event — whose severity is elevated (Warn) exactly
when the up/down status changed AND the cycle ended with an error
(successful cycles always log at Info); the event carries
failure_stage/error_details fields whenever an error occurred, the
first cycle always counts as changed, and later cycles count as
changed exactly when the up/down outcome flipped. -/
theorem C4_one_outcome_log_amended (cfg : TargetCfg) (st : TargetState)
    (env : ProbeEnv) :
    ((probeOnce cfg st env).logs.countP (fun ev => ev.level != LogLevel.debug) = 1) ∧
    ((probeOnce cfg st env).logs.countP isOutcomeEvent = 1) ∧
    (∀ ev ∈ (probeOnce cfg st env).logs, isOutcomeEvent ev = true →
      ev.level ≠ LogLevel.debug ∧
      ((ev.level = LogLevel.warn) ↔
        ((probeOnce cfg st env).statusChanged = true ∧
         (probeOnce cfg st env).err ≠ none)) ∧
      ((probeOnce cfg st env).err ≠ none →
        "failure_stage" ∈ ev.fields.map Prod.fst ∧
        "error_details" ∈ ev.fields.map Prod.fst)) ∧
    (st.lastUpStatus = none → (probeOnce cfg st env).statusChanged = true) ∧
    (∀ b, st.lastUpStatus = some b →
      ((probeOnce cfg st env).statusChanged = true ↔
       b ≠ (probeOnce cfg st env).up)) := by
  obtain ⟨pe, pd, now, qe, qd, td⟩ := env
  obtain ⟨lp, ls, le⟩ := st
  rcases pe with _ | e <;> rcases qe with _ | qe' <;> rcases ls with _ | b <;>
    try cases b
  all_goals
    refine ⟨?_, ?_, ?_, ?_, ?_⟩ <;>
      simp [probeOnce, isOutcomeEvent, analyzeError_stage_ne_empty,
        analyzeError_details_ne_empty]

/-- Witness for C4 (amended): first cycle, failing ping — the outcome
event is elevated to Warn. -/
theorem C4_one_outcome_log_amended_witness :
    (probeOnce wCfg wStFirst wEnvPingFail).logs.countP isOutcomeEvent = 1 ∧
    (probeOnce wCfg wStFirst wEnvPingFail).statusChanged = true ∧
    (∀ ev ∈ (probeOnce wCfg wStFirst wEnvPingFail).logs, isOutcomeEvent ev = true →
      ev.level = LogLevel.warn) := by
  have h := C4_one_outcome_log_amended wCfg wStFirst wEnvPingFail
  refine ⟨h.2.1, h.2.2.2.1 rfl, fun ev hm ho => ?_⟩
  refine ((h.2.2.1 ev hm ho).2.1).mpr ⟨h.2.2.2.1 rfl, ?_⟩
  decide

end DBProbe
